import Mathlib

/-!
# Verification of the teen-engagement backend's progress/eligibility engine

Shallow embedding of the progress aggregator, badge state machine, raffle
eligibility evaluator, submission normalizer and review gate from the
repository's source (`src/utils/helpers.js`, `src/controllers/badgeController.js`,
`src/controllers/paystackWebhookController.js`,
`src/controllers/submissionController.js`, `src/middleware/validation.js`).

Modelling conventions:
* The database is a record of lists of rows; Prisma `upsert` keyed on a unique
  key becomes an update-in-place-or-append on the list.
* `new Date()` / timestamps are natural numbers threaded as a `now` parameter.
* JS numbers are modelled as exact arithmetic: counts as `Nat`, scores and
  percentages as `Int`, the division inside `Math.round((c/t)*100)` as `Rat`.
  `Math.round` (nearest integer, ties toward plus infinity) is `⌊q + 1/2⌋`.
* External collaborators (Paystack initialize/verify, HMAC signature check,
  thrown storage errors) appear as boolean parameters recording their outcome.
* Each controller/helper returns, besides its response value, the list of
  database states after each successive persisted write (its write trace); the
  final database is the last element, or the input when nothing was written.
-/

namespace Teensha

/-- Submission status enum (`PENDING`/`APPROVED`/`REJECTED`). -/
inductive SubStatus
  | PENDING
  | APPROVED
  | REJECTED
deriving DecidableEq, Repr

/-- Teen badge status enum (`AVAILABLE`/`PURCHASED`/`EARNED`). -/
inductive BadgeStatus
  | AVAILABLE
  | PURCHASED
  | EARNED
deriving DecidableEq, Repr

/-- Transaction status enum as used by the webhook controller. -/
inductive TxStatus
  | SUCCESS
  | FAILED
deriving DecidableEq, Repr

/-- A `MonthlyChallenge` row (fields used by the embedded operations). -/
structure Challenge where
  id : Nat
  year : Nat
  isPublished : Bool
  isActive : Bool
deriving DecidableEq, Repr

/-- A `Task` row (fields used by the embedded operations). -/
structure Task where
  id : Nat
  challengeId : Nat
  maxScore : Int
deriving DecidableEq, Repr

/-- A `Submission` row (fields used by the embedded operations). -/
structure Submission where
  id : Nat
  taskId : Nat
  teenId : Nat
  status : SubStatus
  score : Option Int
  reviewNote : Option String
  reviewerId : Option Nat
  reviewedAt : Option Nat
deriving DecidableEq, Repr

/-- A `TeenProgress` row. -/
structure ProgressRec where
  teenId : Nat
  challengeId : Nat
  tasksTotal : Nat
  tasksCompleted : Nat
  percentage : Int
  completedAt : Option Nat
deriving DecidableEq, Repr

/-- A `Badge` row (fields used by the embedded operations). -/
structure Badge where
  id : Nat
  challengeId : Nat
  isActive : Bool
deriving DecidableEq, Repr

/-- A `TeenBadge` row. -/
structure TeenBadge where
  teenId : Nat
  badgeId : Nat
  status : BadgeStatus
  purchasedAt : Option Nat
  earnedAt : Option Nat
deriving DecidableEq, Repr

/-- A `RaffleEntry` row. -/
structure RaffleEntry where
  teenId : Nat
  year : Nat
  isEligible : Bool
deriving DecidableEq, Repr

/-- A `Transaction` row (fields used by the webhook controller; the gateway
reference string is modelled as a number). -/
structure Transaction where
  reference : Nat
  teenId : Nat
  badgeId : Nat
  status : TxStatus
  paidAt : Option Nat
deriving DecidableEq, Repr

/-- The persisted state: one list of rows per table. -/
structure DB where
  challenges : List Challenge
  badges : List Badge
  tasks : List Task
  submissions : List Submission
  teenProgress : List ProgressRec
  teenBadges : List TeenBadge
  raffleEntries : List RaffleEntry
  transactions : List Transaction
deriving DecidableEq, Repr

/-- Prisma `upsert` on a list keyed by `key`: update every row matching the
unique key (at most one exists in well-formed data), or append `fresh` when
none matches. -/
def upsertBy (key : α → Bool) (upd : α → α) (fresh : α) (l : List α) : List α :=
  if l.any key then l.map (fun a => if key a then upd a else a) else l ++ [fresh]

/-- Prisma `findUnique`/`findFirst` on a list: first row matching the key. -/
def findBy (key : α → Bool) (l : List α) : Option α :=
  l.find? key

/-- `Math.round` on an exact rational: nearest integer, ties toward plus
infinity. -/
def jsRound (q : ℚ) : ℤ := ⌊q + 1 / 2⌋

/-- `calculateProgress` from `src/utils/helpers.js`:
`if (total === 0) return 0; return Math.round((completed / total) * 100);`. -/
def calculateProgress (completed total : Nat) : Int :=
  if total = 0 then 0 else jsRound (((completed : ℚ) / (total : ℚ)) * 100)

/-- Integer-division form of `calculateProgress`, used to evaluate it on
concrete inputs (rational arithmetic does not kernel-reduce). -/
def calculateProgressDiv (completed total : Nat) : Int :=
  if total = 0 then 0 else ((200 * completed + total : ℕ) : ℤ) / ((2 * total : ℕ) : ℤ)

theorem calculateProgress_eq_div :
    calculateProgress = calculateProgressDiv := by
  funext c t
  unfold calculateProgress calculateProgressDiv jsRound
  rcases Nat.eq_zero_or_pos t with h | h
  · simp [h]
  · have ht : (t : ℚ) ≠ 0 := Nat.cast_ne_zero.mpr h.ne'
    rw [if_neg h.ne', if_neg h.ne']
    have hq : ((c : ℚ) / (t : ℚ)) * 100 + 1 / 2
        = (((200 * c + t : ℕ) : ℤ) : ℚ) / (((2 * t : ℕ) : ℤ) : ℚ) := by
      field_simp
      ring
    rw [hq]
    exact_mod_cast Rat.floor_intCast_div_natCast ((200 * c + t : ℕ) : ℤ) (2 * t)

/-- The task rows of a challenge (`prisma.task.findMany({ where: { challengeId } })`). -/
def tasksOfChallenge (db : DB) (challengeId : Nat) : List Task :=
  db.tasks.filter (fun t => t.challengeId == challengeId)

/-- Whether a submission's related task belongs to the challenge
(Prisma relation filter `task: { challengeId }`; `taskId` is a foreign key to
the task primary key, so the related row is the first with that id). -/
def submissionInChallenge (db : DB) (challengeId : Nat) (s : Submission) : Bool :=
  match findBy (fun t => t.id == s.taskId) db.tasks with
  | some t => t.challengeId == challengeId
  | none => false

/-- `prisma.submission.count({ where: { teenId, status: 'APPROVED', task: { challengeId } } })`. -/
def countApprovedSubmissions (db : DB) (teenId challengeId : Nat) : Nat :=
  (db.submissions.filter (fun s =>
    s.teenId == teenId && s.status == SubStatus.APPROVED
      && submissionInChallenge db challengeId s)).length

/-- Find the `(teenId, challengeId)` progress row. -/
def findProgress (db : DB) (teenId challengeId : Nat) : Option ProgressRec :=
  findBy (fun p => p.teenId == teenId && p.challengeId == challengeId) db.teenProgress

/-- Result object returned by `updateTeenProgressHelper`. -/
structure ProgressResult where
  totalTasks : Nat
  completedSubmissions : Nat
  percentage : Int
  isCompleted : Bool
deriving DecidableEq, Repr

/-- `updateTeenProgressHelper` from `src/utils/helpers.js`: recount tasks and
approved submissions, derive the percentage, and upsert the
`(teenId, challengeId)` progress row, setting `completedAt` to `now` when the
percentage is 100 and to `null` otherwise (both in the update and the create
branch). Returns the result object and the single-write trace. -/
def updateTeenProgressHelper (teenId challengeId now : Nat) (db : DB) :
    ProgressResult × List DB :=
  let totalTasks := (tasksOfChallenge db challengeId).length
  let completedSubmissions := countApprovedSubmissions db teenId challengeId
  let percentage := calculateProgress completedSubmissions totalTasks
  let isCompleted := percentage == 100
  let db1 : DB := { db with
    teenProgress := upsertBy
      (fun p => p.teenId == teenId && p.challengeId == challengeId)
      (fun p => { p with
        tasksTotal := totalTasks
        tasksCompleted := completedSubmissions
        percentage := percentage
        completedAt := if isCompleted then some now else none })
      { teenId := teenId, challengeId := challengeId
        tasksTotal := totalTasks, tasksCompleted := completedSubmissions
        percentage := percentage
        completedAt := if isCompleted then some now else none }
      db.teenProgress }
  (⟨totalTasks, completedSubmissions, percentage, isCompleted⟩, [db1])

/-- Final database after a write trace starting from `db`. -/
def finalDB (db : DB) (trace : List DB) : DB :=
  trace.getLastD db

/-- Find the badge row with the given id (`prisma.badge.findUnique`). -/
def findBadge (db : DB) (badgeId : Nat) : Option Badge :=
  findBy (fun b => b.id == badgeId) db.badges

/-- Find the challenge row with the given id. -/
def findChallenge (db : DB) (challengeId : Nat) : Option Challenge :=
  findBy (fun c => c.id == challengeId) db.challenges

/-- The unique key predicate of the `(teenId, badgeId)` teen-badge row. -/
def tbKey (teenId badgeId : Nat) : TeenBadge → Bool :=
  fun r => r.teenId == teenId && r.badgeId == badgeId

/-- Find the `(teenId, badgeId)` teen-badge row (`prisma.teenBadge.findUnique`). -/
def findTeenBadge (db : DB) (teenId badgeId : Nat) : Option TeenBadge :=
  findBy (tbKey teenId badgeId) db.teenBadges

/-- Status of the `(teenId, badgeId)` teen-badge row, when it exists. -/
def statusAt (db : DB) (teenId badgeId : Nat) : Option BadgeStatus :=
  (findTeenBadge db teenId badgeId).map (fun r => r.status)

/-- The year of the challenge a badge belongs to (Prisma nested relation
`badge: { challenge: { year } }`). -/
def yearOfBadge (db : DB) (badgeId : Nat) : Option Nat :=
  (findBadge db badgeId).bind (fun b =>
    (findChallenge db b.challengeId).map (fun c => c.year))

/-- `prisma.teenBadge.count({ where: { teenId, status: { in: ['PURCHASED', 'EARNED'] },
badge: { challenge: { year } } } })` from `updateRaffleEligibilityHelper`. -/
def countYearBadges (db : DB) (teenId year : Nat) : Nat :=
  (db.teenBadges.filter (fun r =>
    r.teenId == teenId
      && (r.status == BadgeStatus.PURCHASED || r.status == BadgeStatus.EARNED)
      && yearOfBadge db r.badgeId == some year)).length

/-- Find the `(teenId, year)` raffle entry. -/
def findRaffleEntry (db : DB) (teenId year : Nat) : Option RaffleEntry :=
  findBy (fun e => e.teenId == teenId && e.year == year) db.raffleEntries

/-- Result object returned by `updateRaffleEligibilityHelper`. -/
structure EligibilityResult where
  purchasedBadges : Nat
  isEligible : Bool
deriving DecidableEq, Repr

/-- `updateRaffleEligibilityHelper` from `src/utils/helpers.js`: count the
teen's PURCHASED/EARNED badges whose challenge year matches, set
`isEligible = (count === 12)`, and upsert the `(teenId, year)` raffle entry.
Returns the result object and the single-write trace. -/
def updateRaffleEligibilityHelper (teenId year : Nat) (db : DB) :
    EligibilityResult × List DB :=
  let purchasedBadges := countYearBadges db teenId year
  let isEligible := purchasedBadges == 12
  let db1 : DB := { db with
    raffleEntries := upsertBy
      (fun e => e.teenId == teenId && e.year == year)
      (fun e => { e with isEligible := isEligible })
      { teenId := teenId, year := year, isEligible := isEligible }
      db.raffleEntries }
  (⟨purchasedBadges, isEligible⟩, [db1])

/-- An HTTP response as produced by the embedded controllers: status code,
`success` flag and optional `message`. -/
structure ApiResp where
  status : Nat
  success : Bool
  message : Option String
deriving DecidableEq, Repr

/-- Upsert of the `(teenId, badgeId)` teen-badge row whose update branch sets
`status: 'AVAILABLE'` (the "pending" record written by `initializeBadgePurchase`). -/
def upsertTeenBadgeAvailable (teenId badgeId : Nat) (db : DB) : DB :=
  { db with
    teenBadges := upsertBy (tbKey teenId badgeId)
      (fun r => { r with status := BadgeStatus.AVAILABLE })
      { teenId := teenId, badgeId := badgeId, status := BadgeStatus.AVAILABLE
        purchasedAt := none, earnedAt := none }
      db.teenBadges }

/-- Upsert of the `(teenId, badgeId)` teen-badge row whose update branch sets
`status: 'PURCHASED', purchasedAt` (used by `verifyBadgePurchase` and
`handleSuccessfulCharge`). -/
def upsertTeenBadgePurchased (teenId badgeId paidAt : Nat) (db : DB) : DB :=
  { db with
    teenBadges := upsertBy (tbKey teenId badgeId)
      (fun r => { r with status := BadgeStatus.PURCHASED, purchasedAt := some paidAt })
      { teenId := teenId, badgeId := badgeId, status := BadgeStatus.PURCHASED
        purchasedAt := some paidAt, earnedAt := none }
      db.teenBadges }

/-- `prisma.teenBadge.update` setting `status: 'EARNED', earnedAt` on the row
just upserted (identified by its unique `(teenId, badgeId)` key). -/
def markTeenBadgeEarned (teenId badgeId now : Nat) (db : DB) : DB :=
  { db with
    teenBadges := db.teenBadges.map (fun r =>
      if tbKey teenId badgeId r then
        { r with status := BadgeStatus.EARNED, earnedAt := some now }
      else r) }

/-- `initializeBadgePurchase` from `src/controllers/badgeController.js`:
look up the badge (404 when absent or inactive, 403 when its challenge is
unpublished), reject with `Badge already purchased` when the existing
teen-badge row is `PURCHASED`, initialize the Paystack transaction (outcome
given by `txOk`; 500 on failure), then upsert the pending teen-badge row with
status `AVAILABLE`. Returns the response and the write trace. -/
def initializeBadgePurchase (teenId badgeId : Nat) (txOk : Bool) (db : DB) :
    ApiResp × List DB :=
  match findBadge db badgeId with
  | none => (⟨404, false, some "Badge not found or inactive"⟩, [])
  | some badge =>
    if !badge.isActive then (⟨404, false, some "Badge not found or inactive"⟩, [])
    else
      match findChallenge db badge.challengeId with
      | none => (⟨404, false, some "Badge not found or inactive"⟩, [])
      | some challenge =>
        if !challenge.isPublished then
          (⟨403, false, some "Badge is not available for purchase"⟩, [])
        else
          match findTeenBadge db teenId badgeId with
          | some existing =>
            if existing.status == BadgeStatus.PURCHASED then
              (⟨400, false, some "Badge already purchased"⟩, [])
            else if !txOk then
              (⟨500, false, some "Failed to initialize payment"⟩, [])
            else
              (⟨200, true, some "Payment initialized successfully"⟩,
                [upsertTeenBadgeAvailable teenId badgeId db])
          | none =>
            if !txOk then
              (⟨500, false, some "Failed to initialize payment"⟩, [])
            else
              (⟨200, true, some "Payment initialized successfully"⟩,
                [upsertTeenBadgeAvailable teenId badgeId db])

/-- `verifyBadgePurchase` from `src/controllers/badgeController.js`:
verify the Paystack transaction (outcome given by `verifyOk`), look up the
badge, upsert the teen-badge row to `PURCHASED`, upgrade it to `EARNED` when
the persisted progress percentage for the metadata challenge is 100, then
update raffle eligibility. Returns the response and the write trace. -/
def verifyBadgePurchase (teenId badgeId challengeId : Nat) (verifyOk : Bool)
    (now : Nat) (db : DB) : ApiResp × List DB :=
  if !verifyOk then (⟨400, false, some "Payment verification failed"⟩, [])
  else
    match findBadge db badgeId with
    | none => (⟨404, false, some "Badge not found"⟩, [])
    | some badge =>
      let db1 := upsertTeenBadgePurchased teenId badgeId now db
      let afterEarn :=
        match findProgress db1 teenId challengeId with
        | some p =>
          if p.percentage = 100 then [markTeenBadgeEarned teenId badgeId now db1] else []
        | none => []
      let db2 := (afterEarn).getLastD db1
      let db3 := (updateRaffleEligibilityHelper teenId
        ((findChallenge db2 badge.challengeId).elim 0 (fun c => c.year)) db2).2.getLastD db2
      (⟨200, true, some "Badge purchased successfully"⟩, [db1] ++ afterEarn ++ [db3])

/-- Upsert of the transaction row keyed by the gateway reference, as done by
`handleSuccessfulCharge` (update branch sets status SUCCESS and `paidAt`). -/
def upsertTransactionSuccess (reference teenId badgeId paidAt : Nat) (db : DB) : DB :=
  { db with
    transactions := upsertBy
      (fun t => t.reference == reference)
      (fun t => { t with status := TxStatus.SUCCESS, paidAt := some paidAt })
      { reference := reference, teenId := teenId, badgeId := badgeId
        status := TxStatus.SUCCESS, paidAt := some paidAt }
      db.transactions }

/-- `handleSuccessfulCharge` from `src/controllers/paystackWebhookController.js`:
look up the badge (bail out silently when absent), upsert the transaction,
upsert the teen-badge row to `PURCHASED`, upgrade it to `EARNED` when the
persisted progress percentage for the metadata challenge is 100, then update
raffle eligibility. A thrown database error (`fault`) is caught and swallowed,
so the caller observes no writes and no error. Returns the write trace. -/
def handleSuccessfulCharge (reference teenId badgeId challengeId paidAt now : Nat)
    (fault : Bool) (db : DB) : List DB :=
  if fault then []
  else
    match findBadge db badgeId with
    | none => []
    | some badge =>
      let db1 := upsertTransactionSuccess reference teenId badgeId paidAt db
      let db2 := upsertTeenBadgePurchased teenId badgeId paidAt db1
      let afterEarn :=
        match findProgress db2 teenId challengeId with
        | some p =>
          if p.percentage = 100 then [markTeenBadgeEarned teenId badgeId now db2] else []
        | none => []
      let db3 := (afterEarn).getLastD db2
      let db4 := (updateRaffleEligibilityHelper teenId
        ((findChallenge db3 badge.challengeId).elim 0 (fun c => c.year)) db3).2.getLastD db3
      [db1, db2] ++ afterEarn ++ [db4]

/-- `handleFailedCharge`: create a FAILED transaction row; a thrown database
error (`fault`) is caught and swallowed. Returns the write trace. -/
def handleFailedCharge (reference teenId badgeId : Nat) (fault : Bool) (db : DB) :
    List DB :=
  if fault then []
  else
    [{ db with
        transactions := db.transactions ++
          [{ reference := reference, teenId := teenId, badgeId := badgeId
             status := TxStatus.FAILED, paidAt := none }] }]

/-- A Paystack webhook event, carrying the metadata fields the handlers read. -/
inductive WebhookEvent
  | chargeSuccess (reference teenId badgeId challengeId paidAt : Nat)
  | chargeFailed (reference teenId badgeId : Nat)
  | transferSuccess
  | transferFailed
  | other
deriving DecidableEq, Repr

/-- `handlePaystackWebhook` from `src/controllers/paystackWebhookController.js`:
reject with 401 when the HMAC signature does not match (`sigOk`), otherwise
dispatch on the event type and respond `200 { success: true }` — the charge
handlers catch and swallow their own errors, so dispatch never throws.
Returns the response and the write trace. -/
def handlePaystackWebhook (sigOk : Bool) (event : WebhookEvent) (fault : Bool)
    (now : Nat) (db : DB) : ApiResp × List DB :=
  if !sigOk then (⟨401, false, some "Invalid signature"⟩, [])
  else
    match event with
    | WebhookEvent.chargeSuccess reference teenId badgeId challengeId paidAt =>
      (⟨200, true, none⟩,
        handleSuccessfulCharge reference teenId badgeId challengeId paidAt now fault db)
    | WebhookEvent.chargeFailed reference teenId badgeId =>
      (⟨200, true, none⟩, handleFailedCharge reference teenId badgeId fault db)
    | WebhookEvent.transferSuccess => (⟨200, true, none⟩, [])
    | WebhookEvent.transferFailed => (⟨200, true, none⟩, [])
    | WebhookEvent.other => (⟨200, true, none⟩, [])

/-- The empty database. -/
def emptyDB : DB :=
  ⟨[], [], [], [], [], [], [], []⟩

/-- JS `String.prototype.trim`: strip whitespace from both ends. Text content
is modelled as its character sequence (`List Char`), matching JS string
length/trim semantics. -/
def jsTrim (s : List Char) : List Char :=
  ((s.dropWhile Char.isWhitespace).reverse.dropWhile Char.isWhitespace).reverse

/-- `validateTextSubmission` from `src/middleware/validation.js`. `none` models
a missing or non-string `content`; note that the JS guard `!content` also fires
on the empty string. Returns the error message, or `none` on acceptance. -/
def validateTextSubmission (content : Option (List Char)) : Option String :=
  match content with
  | none => some "Text content is required"
  | some s =>
    if s = [] then some "Text content is required"
    else if (jsTrim s).length < 10 then some "Text must be at least 10 characters long"
    else if s.length > 5000 then some "Text must not exceed 5000 characters"
    else none

/-- One entry of a CHECKLIST task's `options.items`. -/
structure ChecklistItem where
  id : String
  text : String
  required : Bool
deriving DecidableEq, Repr

/-- A CHECKLIST task's `options` object; `items` is `none` when the `items`
field is absent (the JS code falls back to `[]` via `taskOptions?.items || []`). -/
structure ChecklistOptions where
  items : Option (List ChecklistItem)
deriving DecidableEq, Repr

/-- The result of the `JSON.parse` stage on a CHECKLIST submission's `content`
string: missing/falsy, unparseable, parseable but not an array, or an array
(elements modelled as the strings compared against item ids). -/
inductive ChecklistContent
  | missing
  | malformed
  | nonArray
  | arr (checkedItems : List String)
deriving DecidableEq, Repr

/-- The `options.items` list with the JS `taskOptions?.items || []` fallback. -/
def itemsOf (taskOptions : Option ChecklistOptions) : List ChecklistItem :=
  match taskOptions with
  | none => []
  | some o => o.items.getD []

/-- The for-loop of `validateChecklistSubmission`: first required item whose id
is not among the checked items. -/
def firstMissingRequired (req : List ChecklistItem) (checkedItems : List String) :
    Option ChecklistItem :=
  req.find? (fun item => !(checkedItems.contains item.id))

/-- `validateChecklistSubmission` from `src/middleware/validation.js`: require
a parseable JSON array and that every item marked `required` in the task's
options has its id among the checked items. Returns the error message, or
`none` on acceptance. -/
def validateChecklistSubmission (content : ChecklistContent)
    (taskOptions : Option ChecklistOptions) : Option String :=
  match content with
  | ChecklistContent.missing => some "Checklist items are required"
  | ChecklistContent.malformed => some "Invalid checklist format"
  | ChecklistContent.nonArray => some "Checklist must be an array"
  | ChecklistContent.arr checkedItems =>
    let requiredItems := (itemsOf taskOptions).filter (fun item => item.required)
    match firstMissingRequired requiredItems checkedItems with
    | some item => some ("Required item \x22" ++ item.text ++ "\x22 must be checked")
    | none => none

/-- Find a submission row by its id. -/
def findSubmission (db : DB) (submissionId : Nat) : Option Submission :=
  findBy (fun s => s.id == submissionId) db.submissions

/-- The review-status strings accepted by `reviewSubmission`
(`['APPROVED', 'REJECTED', 'PENDING'].includes(status)`). -/
def parseReviewStatus (status : String) : Option SubStatus :=
  if status = "APPROVED" then some SubStatus.APPROVED
  else if status = "REJECTED" then some SubStatus.REJECTED
  else if status = "PENDING" then some SubStatus.PENDING
  else none

/-- `reviewSubmission` from `src/controllers/submissionController.js` (fixed
version, lines 1657–1749): validate the status string, look up the submission
with its task, reject an out-of-range score with a message naming the bound,
otherwise persist status/score/note/reviewer and re-run the progress helper.
Returns the response and the write trace. -/
def reviewSubmission (submissionId : Nat) (status : String) (score : Option Int)
    (reviewNote : Option String) (reviewerId now : Nat) (db : DB) :
    ApiResp × List DB :=
  match parseReviewStatus status with
  | none => (⟨400, false, some "Invalid status"⟩, [])
  | some st =>
    match findSubmission db submissionId with
    | none => (⟨404, false, some "Submission not found"⟩, [])
    | some submission =>
      match findBy (fun t => t.id == submission.taskId) db.tasks with
      | none => (⟨500, false, some "Internal server error"⟩, [])
      | some task =>
        match score with
        | some sc =>
          if sc < 0 || sc > task.maxScore then
            (⟨400, false,
              some ("Score must be between 0 and " ++ toString task.maxScore)⟩, [])
          else
            let db1 : DB := { db with
              submissions := db.submissions.map (fun s =>
                if s.id == submissionId then
                  { s with
                    status := st
                    score := some sc
                    reviewNote := reviewNote
                    reviewerId := some reviewerId
                    reviewedAt := some now }
                else s) }
            let trace := (updateTeenProgressHelper submission.teenId task.challengeId
              now db1).2
            (⟨200, true, some "Submission reviewed successfully"⟩,
              [db1] ++ trace)
        | none =>
          let db1 : DB := { db with
            submissions := db.submissions.map (fun s =>
              if s.id == submissionId then
                { s with
                  status := st
                  score := s.score
                  reviewNote := reviewNote
                  reviewerId := some reviewerId
                  reviewedAt := some now }
              else s) }
          let trace := (updateTeenProgressHelper submission.teenId task.challengeId
            now db1).2
          (⟨200, true, some "Submission reviewed successfully"⟩,
            [db1] ++ trace)

/-- One engine operation: purchase initialization, purchase verification,
Paystack webhook delivery (duplicates are simply repeated `webhook` entries),
or a progress recomputation. -/
inductive Op
  | init (teenId badgeId : Nat) (txOk : Bool)
  | verify (teenId badgeId challengeId : Nat) (verifyOk : Bool) (now : Nat)
  | webhook (sigOk : Bool) (event : WebhookEvent) (fault : Bool) (now : Nat)
  | recompute (teenId challengeId now : Nat)
deriving DecidableEq, Repr

/-- The write trace of one operation. -/
def opTrace (op : Op) (db : DB) : List DB :=
  match op with
  | Op.init teenId badgeId txOk => (initializeBadgePurchase teenId badgeId txOk db).2
  | Op.verify teenId badgeId challengeId verifyOk now =>
    (verifyBadgePurchase teenId badgeId challengeId verifyOk now db).2
  | Op.webhook sigOk event fault now => (handlePaystackWebhook sigOk event fault now db).2
  | Op.recompute teenId challengeId now =>
    (updateTeenProgressHelper teenId challengeId now db).2

/-- The concatenated write trace of a sequence of operations, each started
from the final state of the previous one. -/
def runOps (ops : List Op) (db : DB) : List DB :=
  match ops with
  | [] => []
  | op :: rest =>
    let trace := opTrace op db
    trace ++ runOps rest (trace.getLastD db)

/-- "This pair of successive states does not move the `(teenId, badgeId)` row
from `x` to `y`" — the building block of the transition claims. -/
def noStep (teenId badgeId : Nat) (x y : BadgeStatus) (d1 d2 : DB) : Prop :=
  ¬(statusAt d1 teenId badgeId = some x ∧ statusAt d2 teenId badgeId = some y)

instance (teenId badgeId : Nat) (x y : BadgeStatus) (d1 d2 : DB) :
    Decidable (noStep teenId badgeId x y d1 d2) :=
  inferInstanceAs (Decidable ¬(statusAt d1 teenId badgeId = some x
    ∧ statusAt d2 teenId badgeId = some y))

section UpsertLemmas

variable {α : Type}

theorem find?_map_update (q : α → Bool) (f : α → α)
    (hq : ∀ a, q (f a) = q a) (l : List α) :
    (l.map (fun a => if q a then f a else a)).find? q = (l.find? q).map f := by
  induction l with
  | nil => simp
  | cons a l ih =>
    by_cases h : q a = true
    · simp [List.find?_cons, h, hq a]
    · simp only [Bool.not_eq_true] at h
      simp [List.find?_cons, h, ih]

theorem find?_map_invariant (p q : α → Bool) (f : α → α) (l : List α)
    (hpres : ∀ a, p a = true → q (f a) = q a)
    (hdisj : ∀ a, ¬(p a = true ∧ q a = true)) :
    (l.map (fun a => if p a then f a else a)).find? q = l.find? q := by
  induction l with
  | nil => simp
  | cons a l ih =>
    by_cases hp : p a = true
    · have hqa : q a = false := by
        by_contra hq
        exact hdisj a ⟨hp, by revert hq; cases q a <;> simp⟩
      simp [List.find?_cons, hp, hpres a hp, hqa, ih]
    · simp only [Bool.not_eq_true] at hp
      by_cases hq : q a = true
      · simp [List.find?_cons, hp, hq]
      · simp only [Bool.not_eq_true] at hq
        simp [List.find?_cons, hp, hq, ih]

/-- After an upsert, looking up by the upsert's own key finds the updated or
the fresh row. -/
theorem findBy_upsertBy_self (key : α → Bool) (f : α → α) (fresh : α)
    (hkf : ∀ a, key (f a) = key a) (hfresh : key fresh = true) (l : List α) :
    findBy key (upsertBy key f fresh l)
      = some ((findBy key l).elim fresh f) := by
  unfold findBy upsertBy
  by_cases hany : l.any key = true
  · rw [if_pos hany, find?_map_update key f hkf l]
    obtain ⟨a, ha, hkey⟩ := List.any_eq_true.mp hany
    obtain ⟨b, hb⟩ : ∃ b, l.find? key = some b := by
      cases hfind : l.find? key with
      | none => exact absurd hkey (List.find?_eq_none.mp hfind a ha)
      | some b => exact ⟨b, rfl⟩
    simp [hb]
  · simp only [Bool.not_eq_true] at hany
    rw [if_neg (by simp [hany]), List.find?_append]
    have hnone : l.find? key = none := by
      rw [List.find?_eq_none]
      intro x hx
      have := List.any_eq_false.mp hany x hx
      simp [this]
    simp [hnone, List.find?_cons, hfresh]

/-- An upsert keyed disjointly from the lookup key leaves the lookup result
unchanged. -/
theorem findBy_upsertBy_other (key key2 : α → Bool) (f : α → α) (fresh : α)
    (hpres : ∀ a, key a = true → key2 (f a) = key2 a)
    (hdisj : ∀ a, ¬(key a = true ∧ key2 a = true))
    (hfresh : key2 fresh = false) (l : List α) :
    findBy key2 (upsertBy key f fresh l) = findBy key2 l := by
  unfold findBy upsertBy
  by_cases hany : l.any key = true
  · rw [if_pos hany, find?_map_invariant key key2 f l hpres hdisj]
  · simp only [Bool.not_eq_true] at hany
    rw [if_neg (by simp [hany]), List.find?_append]
    simp [List.find?_cons, hfresh]

end UpsertLemmas

section StatusLemmas

theorem tbKey_disjoint {t b t2 b2 : Nat} (h : ¬(t = t2 ∧ b = b2)) :
    ∀ a, ¬(tbKey t b a = true ∧ tbKey t2 b2 a = true) := by
  intro a ⟨h1, h2⟩
  simp only [tbKey, Bool.and_eq_true, beq_iff_eq] at h1 h2
  exact h ⟨h1.1.symm.trans h2.1, h1.2.symm.trans h2.2⟩

theorem statusAt_upsertPurchased_self (t b p : Nat) (db : DB) :
    statusAt (upsertTeenBadgePurchased t b p db) t b = some BadgeStatus.PURCHASED := by
  unfold statusAt findTeenBadge upsertTeenBadgePurchased
  dsimp only
  rw [findBy_upsertBy_self (tbKey t b)]
  · cases findBy (tbKey t b) db.teenBadges <;> rfl
  · exact fun a => rfl
  · simp [tbKey]

theorem statusAt_upsertPurchased_other (t b p t2 b2 : Nat) (db : DB)
    (h : ¬(t = t2 ∧ b = b2)) :
    statusAt (upsertTeenBadgePurchased t b p db) t2 b2 = statusAt db t2 b2 := by
  unfold statusAt findTeenBadge upsertTeenBadgePurchased
  dsimp only
  rw [findBy_upsertBy_other (tbKey t b) (tbKey t2 b2)]
  · exact fun a _ => rfl
  · exact tbKey_disjoint h
  · simp only [tbKey, Bool.and_eq_false_iff, beq_eq_false_iff_ne, ne_eq]
    tauto

theorem statusAt_upsertAvailable_self (t b : Nat) (db : DB) :
    statusAt (upsertTeenBadgeAvailable t b db) t b = some BadgeStatus.AVAILABLE := by
  unfold statusAt findTeenBadge upsertTeenBadgeAvailable
  dsimp only
  rw [findBy_upsertBy_self (tbKey t b)]
  · cases findBy (tbKey t b) db.teenBadges <;> rfl
  · exact fun a => rfl
  · simp [tbKey]

theorem statusAt_upsertAvailable_other (t b t2 b2 : Nat) (db : DB)
    (h : ¬(t = t2 ∧ b = b2)) :
    statusAt (upsertTeenBadgeAvailable t b db) t2 b2 = statusAt db t2 b2 := by
  unfold statusAt findTeenBadge upsertTeenBadgeAvailable
  dsimp only
  rw [findBy_upsertBy_other (tbKey t b) (tbKey t2 b2)]
  · exact fun a _ => rfl
  · exact tbKey_disjoint h
  · simp only [tbKey, Bool.and_eq_false_iff, beq_eq_false_iff_ne, ne_eq]
    tauto

theorem statusAt_markEarned_self (t b n : Nat) (db : DB) :
    statusAt (markTeenBadgeEarned t b n db) t b
      = (statusAt db t b).map (fun _ => BadgeStatus.EARNED) := by
  unfold statusAt findTeenBadge markTeenBadgeEarned findBy
  dsimp only
  rw [find?_map_update (tbKey t b)]
  · cases db.teenBadges.find? (tbKey t b) <;> rfl
  · exact fun a => rfl

theorem statusAt_markEarned_other (t b n t2 b2 : Nat) (db : DB)
    (h : ¬(t = t2 ∧ b = b2)) :
    statusAt (markTeenBadgeEarned t b n db) t2 b2 = statusAt db t2 b2 := by
  unfold statusAt findTeenBadge markTeenBadgeEarned findBy
  dsimp only
  rw [find?_map_invariant (tbKey t b) (tbKey t2 b2)]
  · exact fun a _ => rfl
  · exact tbKey_disjoint h

theorem teenBadges_upsertTransactionSuccess (r t b p : Nat) (db : DB) :
    (upsertTransactionSuccess r t b p db).teenBadges = db.teenBadges := rfl

theorem teenBadges_updateTeenProgressHelper (t c n : Nat) (db : DB) :
    ∀ d ∈ (updateTeenProgressHelper t c n db).2, d.teenBadges = db.teenBadges := by
  intro d hd
  simp only [updateTeenProgressHelper, List.mem_singleton] at hd
  subst hd
  rfl

theorem teenBadges_updateRaffleEligibilityHelper (t y : Nat) (db : DB) :
    ∀ d ∈ (updateRaffleEligibilityHelper t y db).2, d.teenBadges = db.teenBadges := by
  intro d hd
  simp only [updateRaffleEligibilityHelper, List.mem_singleton] at hd
  subst hd
  rfl

theorem statusAt_congr {d1 d2 : DB} (h : d2.teenBadges = d1.teenBadges)
    (t b : Nat) : statusAt d2 t b = statusAt d1 t b := by
  unfold statusAt findTeenBadge findBy
  rw [h]

end StatusLemmas

section ClaimC8

/-- Claim C8 (counterexample): the checklist normalizer does not require
`checkedItems` to be non-empty, nor its elements to be ids defined in the
task's options. For a task with one optional item `a`, the payload `["zzz"]`
is accepted although `zzz` is not a defined item id, and the empty payload
`[]` is accepted although it is empty. -/
theorem checklist_accepts_invalid_cex :
    validateChecklistSubmission (ChecklistContent.arr ["zzz"])
        (some ⟨some [⟨"a", "Item A", false⟩]⟩) = none
      ∧ ("zzz" ∈ (["a"] : List String) → False)
      ∧ validateChecklistSubmission (ChecklistContent.arr [])
        (some ⟨some [⟨"a", "Item A", false⟩]⟩) = none := by
  refine ⟨by decide, by decide, by decide⟩

/-- Claim C8 (amended): the checklist normalizer accepts a parsed array
payload if and only if every item marked `required` in the task's options has
its id among the checked items; it does not check non-emptiness or membership
of the elements in the defined item ids. Missing, unparseable and non-array
payloads are rejected. -/
theorem checklist_accept_iff_required_checked :
    ∀ (checkedItems : List String) (taskOptions : Option ChecklistOptions),
      (validateChecklistSubmission (ChecklistContent.arr checkedItems) taskOptions = none
        ↔ ∀ item ∈ (itemsOf taskOptions).filter (fun i => i.required),
            item.id ∈ checkedItems)
      ∧ validateChecklistSubmission ChecklistContent.missing taskOptions ≠ none
      ∧ validateChecklistSubmission ChecklistContent.malformed taskOptions ≠ none
      ∧ validateChecklistSubmission ChecklistContent.nonArray taskOptions ≠ none := by
  intro checkedItems taskOptions
  refine ⟨?_, by simp [validateChecklistSubmission], by simp [validateChecklistSubmission],
    by simp [validateChecklistSubmission]⟩
  unfold validateChecklistSubmission firstMissingRequired
  cases hfind : ((itemsOf taskOptions).filter (fun i => i.required)).find?
      (fun item => !(checkedItems.contains item.id)) with
  | some item =>
    simp only [hfind]
    constructor
    · intro hcontra
      exact absurd hcontra (by simp)
    · intro hall
      have hmem := List.find?_some hfind
      have hitem := List.mem_of_find?_eq_some hfind
      have hin := hall item hitem
      simp only [Bool.not_eq_true'] at hmem
      simp at hmem
      exact absurd hin hmem
  | none =>
    simp only [hfind]
    constructor
    · intro _ item hitem
      have hcon := List.find?_eq_none.mp hfind item hitem
      simp only [Bool.not_eq_true', Bool.not_eq_false] at hcon
      simpa using hcon
    · intro _
      trivial

end ClaimC8

section ClaimC9

/-- Claim C9 (counterexample): a text of 5001 whitespace characters is longer
than 5000 characters, yet it is rejected with the 10-character-minimum error,
not with `Text must not exceed 5000 characters` — the trim-based minimum check
runs first. -/
theorem overlong_whitespace_text_cex :
    (List.replicate 5001 ' ').length > 5000
      ∧ validateTextSubmission (some (List.replicate 5001 ' '))
          = some "Text must be at least 10 characters long"
      ∧ validateTextSubmission (some (List.replicate 5001 ' '))
          ≠ some "Text must not exceed 5000 characters" := by
  have hlen : (List.replicate 5001 ' ').length = 5001 := List.length_replicate 5001 ' '
  have hne : (List.replicate 5001 ' ') ≠ ([] : List Char) := by
    intro he
    rw [he] at hlen
    simp at hlen
  have htrim : jsTrim (List.replicate 5001 ' ') = [] := by
    unfold jsTrim
    rw [List.dropWhile_replicate]
    simp
  refine ⟨by rw [hlen]; decide, ?_, ?_⟩
  · simp only [validateTextSubmission]
    rw [if_neg hne, htrim, if_pos (by decide)]
  · simp only [validateTextSubmission]
    rw [if_neg hne, htrim, if_pos (by decide)]
    decide

/-- Claim C9 (amended): a text longer than 5000 characters is always rejected;
the error is `Text must not exceed 5000 characters` whenever the trimmed text
has at least 10 characters (otherwise the 10-character-minimum error fires
first). -/
theorem overlong_text_rejected (s : List Char) (h : s.length > 5000) :
    validateTextSubmission (some s) ≠ none
      ∧ (10 ≤ (jsTrim s).length →
          validateTextSubmission (some s) = some "Text must not exceed 5000 characters") := by
  have hne : s ≠ [] := by
    intro he
    rw [he] at h
    simp at h
  simp only [validateTextSubmission]
  rw [if_neg hne]
  by_cases htr : (jsTrim s).length < 10
  · rw [if_pos htr]
    exact ⟨by simp, fun hge => absurd htr (by omega)⟩
  · rw [if_neg htr, if_pos h]
    exact ⟨by simp, fun _ => rfl⟩

/-- Witness for `overlong_text_rejected` at the concrete text of 5001 letters
`a`. -/
theorem overlong_text_rejected_witness :
    (List.replicate 5001 'a').length > 5000
      ∧ (validateTextSubmission (some (List.replicate 5001 'a')) ≠ none
        ∧ (10 ≤ (jsTrim (List.replicate 5001 'a')).length →
            validateTextSubmission (some (List.replicate 5001 'a'))
              = some "Text must not exceed 5000 characters")) := by
  have hlen : (List.replicate 5001 'a').length > 5000 := by
    rw [List.length_replicate]
    decide
  exact ⟨hlen, overlong_text_rejected (List.replicate 5001 'a') hlen⟩

end ClaimC9

section ClaimC7

/-- Claim C7: when a score is provided, a review succeeds exactly when
`0 <= score <= task.maxScore`; an out-of-range score (in particular
`task.maxScore + 1`) is rejected with a validation error naming the valid
bound and no write occurs, while `score = 0` and `score = task.maxScore` are
both accepted. -/
theorem review_score_bound (db : DB) (submissionId : Nat) (status : String)
    (st : SubStatus) (reviewNote : Option String) (reviewerId now : Nat)
    (submission : Submission) (task : Task)
    (hst : parseReviewStatus status = some st)
    (hsub : findSubmission db submissionId = some submission)
    (htask : findBy (fun t => t.id == submission.taskId) db.tasks = some task)
    (hms : 0 ≤ task.maxScore) :
    (∀ sc : Int,
        ((reviewSubmission submissionId status (some sc) reviewNote reviewerId now db).1.success
            = true
          ↔ 0 ≤ sc ∧ sc ≤ task.maxScore))
      ∧ (∀ sc : Int, sc < 0 ∨ sc > task.maxScore →
          (reviewSubmission submissionId status (some sc) reviewNote reviewerId now db).1
              = ⟨400, false,
                  some ("Score must be between 0 and " ++ toString task.maxScore)⟩
            ∧ (reviewSubmission submissionId status (some sc) reviewNote reviewerId now db).2
              = [])
      ∧ ((reviewSubmission submissionId status (some 0) reviewNote reviewerId now db).1.success
          = true)
      ∧ ((reviewSubmission submissionId status (some task.maxScore) reviewNote reviewerId
            now db).1.success = true) := by
  have hbranch : ∀ sc : Int,
      reviewSubmission submissionId status (some sc) reviewNote reviewerId now db
        = if sc < 0 || sc > task.maxScore then
            (⟨400, false,
              some ("Score must be between 0 and " ++ toString task.maxScore)⟩, [])
          else
            (⟨200, true, some "Submission reviewed successfully"⟩,
              [{ db with
                  submissions := db.submissions.map (fun s =>
                    if s.id == submissionId then
                      { s with
                        status := st
                        score := some sc
                        reviewNote := reviewNote
                        reviewerId := some reviewerId
                        reviewedAt := some now }
                    else s) }]
                ++ (updateTeenProgressHelper submission.teenId task.challengeId now
                    { db with
                      submissions := db.submissions.map (fun s =>
                        if s.id == submissionId then
                          { s with
                            status := st
                            score := some sc
                            reviewNote := reviewNote
                            reviewerId := some reviewerId
                            reviewedAt := some now }
                        else s) }).2) := by
    intro sc
    unfold reviewSubmission
    rw [hst]
    dsimp only
    rw [hsub]
    dsimp only
    rw [htask]
  refine ⟨?_, ?_, ?_, ?_⟩
  · intro sc
    rw [hbranch sc]
    by_cases hlt : sc < 0 || sc > task.maxScore
    · rw [if_pos hlt]
      simp only [Bool.or_eq_true, decide_eq_true_eq] at hlt
      constructor
      · intro hcontra
        exact absurd hcontra (by simp)
      · intro ⟨h1, h2⟩
        omega
    · rw [if_neg hlt]
      simp only [Bool.or_eq_true, decide_eq_true_eq, not_or] at hlt
      exact ⟨fun _ => ⟨by omega, by omega⟩, fun _ => rfl⟩
  · intro sc hout
    rw [hbranch sc, if_pos (by simp only [Bool.or_eq_true, decide_eq_true_eq]; omega)]
    exact ⟨rfl, rfl⟩
  · rw [hbranch 0, if_neg (by simp only [Bool.or_eq_true, decide_eq_true_eq]; omega)]
  · rw [hbranch task.maxScore,
      if_neg (by simp only [Bool.or_eq_true, decide_eq_true_eq]; omega)]

/-- Witness for `review_score_bound` on a one-submission database with
`maxScore = 5`. -/
theorem review_score_bound_witness :
    let db : DB := { emptyDB with
      tasks := [⟨10, 1, 5⟩]
      submissions := [⟨1, 10, 7, SubStatus.PENDING, none, none, none, none⟩] }
    (∀ sc : Int,
        ((reviewSubmission 1 "APPROVED" (some sc) none 99 3 db).1.success = true
          ↔ 0 ≤ sc ∧ sc ≤ (5 : Int)))
      ∧ (∀ sc : Int, sc < 0 ∨ sc > (5 : Int) →
          (reviewSubmission 1 "APPROVED" (some sc) none 99 3 db).1
              = ⟨400, false, some ("Score must be between 0 and " ++ toString (5 : Int))⟩
            ∧ (reviewSubmission 1 "APPROVED" (some sc) none 99 3 db).2 = [])
      ∧ ((reviewSubmission 1 "APPROVED" (some 0) none 99 3 db).1.success = true)
      ∧ ((reviewSubmission 1 "APPROVED" (some 5) none 99 3 db).1.success = true) :=
  review_score_bound _ 1 "APPROVED" SubStatus.APPROVED none 99 3
    ⟨1, 10, 7, SubStatus.PENDING, none, none, none, none⟩ ⟨10, 1, 5⟩
    (by decide) (by decide) (by decide) (by decide)

end ClaimC7

section ClaimC10

/-- Claim C10: a Paystack webhook request whose signature verifies is answered
with HTTP 200 and `success: true` for every event, even when the internal
processing fails (the referenced badge does not exist in `db`, or a database
write throws — `fault = true`), because the charge handlers catch and swallow
their own errors. -/
theorem webhook_success_response :
    ∀ (event : WebhookEvent) (fault : Bool) (now : Nat) (db : DB),
      (handlePaystackWebhook true event fault now db).1
        = ⟨200, true, none⟩ := by
  intro event fault now db
  cases event <;> rfl

end ClaimC10

section UniqueKeyLemmas

/-- In a table whose key column is duplicate-free, `findBy` on the key returns
exactly the member carrying that key. -/
theorem findBy_key_unique {α : Type} (key : α → Nat) (l : List α)
    (h : (l.map key).Nodup) (v : Nat) (a : α) (ha : a ∈ l) (hk : key a = v) :
    findBy (fun x => key x == v) l = some a := by
  induction l with
  | nil => cases ha
  | cons b l ih =>
    rw [List.map_cons, List.nodup_cons] at h
    rcases List.mem_cons.mp ha with rfl | hmem
    · unfold findBy
      exact List.find?_cons_of_pos l (by simp [hk])
    · unfold findBy
      have hbne : ¬(key b == v) = true := by
        intro hcontra
        simp only [beq_iff_eq] at hcontra
        exact h.1 (hcontra ▸ hk ▸ List.mem_map_of_mem key hmem)
      rw [List.find?_cons_of_neg l hbne]
      exact ih h.2 hmem

/-- `findBy` on a key returns `none` exactly when no row carries the key. -/
theorem findBy_key_none {α : Type} (key : α → Nat) (l : List α) (v : Nat)
    (h : ∀ a ∈ l, key a ≠ v) :
    findBy (fun x => key x == v) l = none := by
  unfold findBy
  rw [List.find?_eq_none]
  intro a ha
  simp [h a ha]

end UniqueKeyLemmas

section ClaimC5

/-- Spec-worded count for raffle eligibility: the teen's TeenBadge rows in
status PURCHASED or EARNED whose badge's challenge year equals `year`,
expressed by membership in the badge and challenge tables rather than by the
embedded unique-key lookup. -/
def specYearBadgeCount (db : DB) (teenId year : Nat) : Nat :=
  (db.teenBadges.filter (fun r =>
    r.teenId == teenId
      && (r.status == BadgeStatus.PURCHASED || r.status == BadgeStatus.EARNED)
      && db.badges.any (fun b => b.id == r.badgeId
          && db.challenges.any (fun c => c.id == b.challengeId && c.year == year)))).length

/-- On tables with duplicate-free ids, the code's lookup-based year condition
agrees with the spec's membership-based one. -/
theorem yearOfBadge_eq_any (db : DB) (year : Nat)
    (hb : (db.badges.map Badge.id).Nodup) (hc : (db.challenges.map Challenge.id).Nodup)
    (badgeId : Nat) :
    (yearOfBadge db badgeId == some year)
      = db.badges.any (fun b => b.id == badgeId
          && db.challenges.any (fun c => c.id == b.challengeId && c.year == year)) := by
  rcases hfb : findBadge db badgeId with _ | b
  · have hnone : ∀ b ∈ db.badges, b.id ≠ badgeId := by
      intro b hbmem he
      rw [show findBadge db badgeId = findBy (fun x => Badge.id x == badgeId) db.badges
          from rfl] at hfb
      rw [findBy_key_unique Badge.id db.badges hb badgeId b hbmem he] at hfb
      cases hfb
    have : db.badges.any (fun b => b.id == badgeId
        && db.challenges.any (fun c => c.id == b.challengeId && c.year == year)) = false := by
      rw [List.any_eq_false]
      intro b hbmem
      simp [hnone b hbmem]
    rw [this]
    simp [yearOfBadge, hfb]
  · have hbmem : b ∈ db.badges ∧ b.id = badgeId := by
      have h1 := List.mem_of_find?_eq_some hfb
      have h2 := List.find?_some hfb
      simp only [beq_iff_eq] at h2
      exact ⟨h1, h2⟩
    rcases hfc : findChallenge db b.challengeId with _ | c
    · have hcnone : ∀ c ∈ db.challenges, c.id ≠ b.challengeId := by
        intro c hcmem he
        rw [show findChallenge db b.challengeId
            = findBy (fun x => Challenge.id x == b.challengeId) db.challenges from rfl] at hfc
        rw [findBy_key_unique Challenge.id db.challenges hc b.challengeId c hcmem he] at hfc
        cases hfc
      have hrhs : db.badges.any (fun bb => bb.id == badgeId
          && db.challenges.any (fun cc => cc.id == bb.challengeId && cc.year == year))
            = false := by
        rw [List.any_eq_false]
        intro bb hbbmem
        by_cases hid : bb.id = badgeId
        · have hbb : bb = b := by
            have := findBy_key_unique Badge.id db.badges hb badgeId bb hbbmem hid
            rw [show findBadge db badgeId
              = findBy (fun x => Badge.id x == badgeId) db.badges from rfl] at hfb
            rw [this] at hfb
            exact Option.some_inj.mp hfb
          subst hbb
          have : db.challenges.any (fun cc => cc.id == bb.challengeId && cc.year == year)
              = false := by
            rw [List.any_eq_false]
            intro cc hccmem
            simp [hcnone cc hccmem]
          simp [this]
        · simp [hid]
      rw [hrhs]
      simp [yearOfBadge, hfb, hfc]
    · have hcmem : c ∈ db.challenges ∧ c.id = b.challengeId := by
        have h1 := List.mem_of_find?_eq_some hfc
        have h2 := List.find?_some hfc
        simp only [beq_iff_eq] at h2
        exact ⟨h1, h2⟩
      have hlhs : yearOfBadge db badgeId = some c.year := by
        simp [yearOfBadge, hfb, hfc]
      by_cases hy : c.year = year
      · have hrhs : db.badges.any (fun bb => bb.id == badgeId
            && db.challenges.any (fun cc => cc.id == bb.challengeId && cc.year == year))
              = true := by
          rw [List.any_eq_true]
          refine ⟨b, hbmem.1, ?_⟩
          rw [Bool.and_eq_true]
          refine ⟨by simp [hbmem.2], ?_⟩
          rw [List.any_eq_true]
          exact ⟨c, hcmem.1, by simp [hcmem.2, hy]⟩
        rw [hrhs, hlhs]
        simp [hy]
      · have hrhs : db.badges.any (fun bb => bb.id == badgeId
            && db.challenges.any (fun cc => cc.id == bb.challengeId && cc.year == year))
              = false := by
          rw [List.any_eq_false]
          intro bb hbbmem
          by_cases hid : bb.id = badgeId
          · have hbb : bb = b := by
              have := findBy_key_unique Badge.id db.badges hb badgeId bb hbbmem hid
              rw [show findBadge db badgeId
                = findBy (fun x => Badge.id x == badgeId) db.badges from rfl] at hfb
              rw [this] at hfb
              exact Option.some_inj.mp hfb
            subst hbb
            have : db.challenges.any (fun cc => cc.id == bb.challengeId && cc.year == year)
                = false := by
              rw [List.any_eq_false]
              intro cc hccmem
              by_cases hcid : cc.id = bb.challengeId
              · have hcc : cc = c := by
                  have := findBy_key_unique Challenge.id db.challenges hc bb.challengeId
                    cc hccmem hcid
                  rw [show findChallenge db bb.challengeId
                    = findBy (fun x => Challenge.id x == bb.challengeId) db.challenges
                      from rfl] at hfc
                  rw [this] at hfc
                  exact Option.some_inj.mp hfc
                subst hcc
                simp [hy]
              · simp [hcid]
            simp [this]
          · simp [hid]
        rw [hrhs, hlhs]
        simp [hy]

/-- The code's badge count equals the spec-worded one on duplicate-free
tables. -/
theorem countYearBadges_eq_spec (db : DB) (teenId year : Nat)
    (hb : (db.badges.map Badge.id).Nodup)
    (hc : (db.challenges.map Challenge.id).Nodup) :
    countYearBadges db teenId year = specYearBadgeCount db teenId year := by
  unfold countYearBadges specYearBadgeCount
  congr 1
  apply List.filter_congr
  intro r _
  rw [yearOfBadge_eq_any db year hb hc r.badgeId]

/-- Claim C5: after `updateRaffleEligibilityHelper`, the `(teen, year)` raffle
entry exists and its `isEligible` flag is true if and only if the teen's
count of PURCHASED/EARNED badges whose challenge year is `year` is exactly 12
— not at least 12 (duplicate-free badge and challenge ids model the unique
primary keys). -/
theorem raffle_eligibility_iff_twelve (teenId year : Nat) (db : DB)
    (hb : (db.badges.map Badge.id).Nodup)
    (hc : (db.challenges.map Challenge.id).Nodup) :
    ∃ e, findRaffleEntry
        (finalDB db (updateRaffleEligibilityHelper teenId year db).2) teenId year
        = some e
      ∧ (e.isEligible = true ↔ specYearBadgeCount db teenId year = 12) := by
  have hkey : findRaffleEntry (finalDB db (updateRaffleEligibilityHelper teenId year db).2)
      teenId year
      = some ((findBy (fun e => e.teenId == teenId && e.year == year) db.raffleEntries).elim
          ⟨teenId, year, countYearBadges db teenId year == 12⟩
          (fun e => { e with isEligible := countYearBadges db teenId year == 12 })) := by
    unfold updateRaffleEligibilityHelper finalDB findRaffleEntry
    dsimp only
    rw [show ∀ (d x : DB), [x].getLastD d = x from fun d x => rfl]
    dsimp only
    rw [findBy_upsertBy_self]
    · exact fun a => rfl
    · simp
  refine ⟨_, hkey, ?_⟩
  have hflag : ((findBy (fun e => e.teenId == teenId && e.year == year) db.raffleEntries).elim
      (⟨teenId, year, countYearBadges db teenId year == 12⟩ : RaffleEntry)
      (fun e => { e with isEligible := countYearBadges db teenId year == 12 })).isEligible
        = (countYearBadges db teenId year == 12) := by
    cases findBy (fun e => e.teenId == teenId && e.year == year) db.raffleEntries <;> rfl
  rw [hflag, countYearBadges_eq_spec db teenId year hb hc]
  simp

/-- Witness for `raffle_eligibility_iff_twelve` on a database holding exactly
12 purchased badges of year 2025 for teen 7. -/
theorem raffle_eligibility_iff_twelve_witness :
    let db : DB := { emptyDB with
      challenges := (List.range 12).map (fun m => ⟨m + 1, 2025, true, true⟩)
      badges := (List.range 12).map (fun m => ⟨m + 100, m + 1, true⟩)
      teenBadges := (List.range 12).map
        (fun m => ⟨7, m + 100, BadgeStatus.PURCHASED, some 1, none⟩) }
    ∃ e, findRaffleEntry
        (finalDB db (updateRaffleEligibilityHelper 7 2025 db).2) 7 2025
        = some e
      ∧ (e.isEligible = true ↔ specYearBadgeCount db 7 2025 = 12) :=
  raffle_eligibility_iff_twelve 7 2025 _ (by decide) (by decide)

end ClaimC5

section ClaimC1

/-- Spec-worded count of completed tasks: the teen's APPROVED submissions
whose task belongs to the challenge, expressed by membership in the task
table rather than by the embedded unique-key lookup. -/
def specApprovedCount (db : DB) (teenId challengeId : Nat) : Nat :=
  (db.submissions.filter (fun s =>
    s.teenId == teenId && s.status == SubStatus.APPROVED
      && db.tasks.any (fun t => t.id == s.taskId && t.challengeId == challengeId))).length

/-- Spec-worded percentage: `round(100 * tasksCompleted / tasksTotal)`, and 0
when `tasksTotal = 0`. -/
def specPercentage (completed total : Nat) : Int :=
  if total = 0 then 0 else jsRound ((100 * (completed : ℚ)) / (total : ℚ))

theorem calculateProgress_eq_spec (completed total : Nat) :
    calculateProgress completed total = specPercentage completed total := by
  unfold calculateProgress specPercentage
  rcases Nat.eq_zero_or_pos total with h | h
  · simp [h]
  · rw [if_neg h.ne', if_neg h.ne', div_mul_eq_mul_div, mul_comm]

/-- On a task table with duplicate-free ids, the code's lookup-based challenge
membership agrees with the spec's membership-based one. -/
theorem submissionInChallenge_eq_any (db : DB) (challengeId : Nat)
    (ht : (db.tasks.map Task.id).Nodup) (s : Submission) :
    submissionInChallenge db challengeId s
      = db.tasks.any (fun t => t.id == s.taskId && t.challengeId == challengeId) := by
  unfold submissionInChallenge
  rcases hft : findBy (fun t => t.id == s.taskId) db.tasks with _ | task
  · have hnone : ∀ t ∈ db.tasks, t.id ≠ s.taskId := by
      intro t htmem he
      rw [findBy_key_unique Task.id db.tasks ht s.taskId t htmem he] at hft
      cases hft
    have hfalse : db.tasks.any (fun t => t.id == s.taskId && t.challengeId == challengeId)
        = false := by
      rw [List.any_eq_false]
      intro t htmem
      simp [hnone t htmem]
    rw [hft, hfalse]
  · have htmem : task ∈ db.tasks ∧ task.id = s.taskId := by
      have h1 := List.mem_of_find?_eq_some hft
      have h2 := List.find?_some hft
      simp only [beq_iff_eq] at h2
      exact ⟨h1, h2⟩
    rw [hft]
    by_cases hch : task.challengeId = challengeId
    · have htrue : db.tasks.any (fun t => t.id == s.taskId && t.challengeId == challengeId)
          = true := by
        rw [List.any_eq_true]
        exact ⟨task, htmem.1, by simp [htmem.2, hch]⟩
      rw [htrue]
      simp [hch]
    · have hfalse : db.tasks.any (fun t => t.id == s.taskId && t.challengeId == challengeId)
          = false := by
        rw [List.any_eq_false]
        intro t htmem2
        by_cases hid : t.id = s.taskId
        · have hteq : t = task := by
            have := findBy_key_unique Task.id db.tasks ht s.taskId t htmem2 hid
            rw [this] at hft
            exact Option.some_inj.mp hft
          subst hteq
          simp [hch]
        · simp [hid]
      rw [hfalse]
      simp [hch]

/-- The code's completed-submission count equals the spec-worded one on a
task table with duplicate-free ids. -/
theorem countApprovedSubmissions_eq_spec (db : DB) (teenId challengeId : Nat)
    (ht : (db.tasks.map Task.id).Nodup) :
    countApprovedSubmissions db teenId challengeId
      = specApprovedCount db teenId challengeId := by
  unfold countApprovedSubmissions specApprovedCount
  congr 1
  apply List.filter_congr
  intro s _
  rw [submissionInChallenge_eq_any db challengeId ht s]

/-- Claim C1: after `updateTeenProgressHelper`, the persisted `(teen,
challenge)` progress row has `tasksTotal` = the number of tasks of the
challenge, `tasksCompleted` = the number of the teen's APPROVED submissions
on tasks of that challenge, and `percentage = round(100 * tasksCompleted /
tasksTotal)` with `percentage = 0` when `tasksTotal = 0` (duplicate-free task
ids model the unique primary key). -/
theorem progress_record_derivation (teenId challengeId now : Nat) (db : DB)
    (ht : (db.tasks.map Task.id).Nodup) :
    ∃ p, findProgress
        (finalDB db (updateTeenProgressHelper teenId challengeId now db).2)
        teenId challengeId = some p
      ∧ p.tasksTotal = (tasksOfChallenge db challengeId).length
      ∧ p.tasksCompleted = specApprovedCount db teenId challengeId
      ∧ p.percentage = specPercentage (specApprovedCount db teenId challengeId)
          (tasksOfChallenge db challengeId).length
      ∧ ((tasksOfChallenge db challengeId).length = 0 → p.percentage = 0) := by
  have hkey : findProgress
      (finalDB db (updateTeenProgressHelper teenId challengeId now db).2) teenId challengeId
      = some ((findBy (fun p => p.teenId == teenId && p.challengeId == challengeId)
          db.teenProgress).elim
          { teenId := teenId, challengeId := challengeId
            tasksTotal := (tasksOfChallenge db challengeId).length
            tasksCompleted := countApprovedSubmissions db teenId challengeId
            percentage := calculateProgress (countApprovedSubmissions db teenId challengeId)
              (tasksOfChallenge db challengeId).length
            completedAt := if (calculateProgress
                (countApprovedSubmissions db teenId challengeId)
                (tasksOfChallenge db challengeId).length == 100)
              then some now else none }
          (fun p => { p with
            tasksTotal := (tasksOfChallenge db challengeId).length
            tasksCompleted := countApprovedSubmissions db teenId challengeId
            percentage := calculateProgress (countApprovedSubmissions db teenId challengeId)
              (tasksOfChallenge db challengeId).length
            completedAt := if (calculateProgress
                (countApprovedSubmissions db teenId challengeId)
                (tasksOfChallenge db challengeId).length == 100)
              then some now else none })) := by
    unfold updateTeenProgressHelper finalDB findProgress
    dsimp only
    rw [show ∀ (d x : DB), [x].getLastD d = x from fun d x => rfl]
    dsimp only
    rw [findBy_upsertBy_self]
    · exact fun a => rfl
    · simp
  have hcount := countApprovedSubmissions_eq_spec db teenId challengeId ht
  have hperc : calculateProgress (countApprovedSubmissions db teenId challengeId)
      (tasksOfChallenge db challengeId).length
      = specPercentage (specApprovedCount db teenId challengeId)
        (tasksOfChallenge db challengeId).length := by
    rw [hcount, calculateProgress_eq_spec]
  have hzero : (tasksOfChallenge db challengeId).length = 0 →
      calculateProgress (countApprovedSubmissions db teenId challengeId)
        (tasksOfChallenge db challengeId).length = 0 := by
    intro h0
    rw [h0]
    simp [calculateProgress]
  refine ⟨_, hkey, ?_, ?_, ?_, ?_⟩ <;>
    cases findBy (fun p => p.teenId == teenId && p.challengeId == challengeId)
      db.teenProgress
  · rfl
  · rfl
  · exact hcount
  · exact hcount
  · exact hperc
  · exact hperc
  · exact hzero
  · exact hzero

/-- Witness for `progress_record_derivation` on a two-task database with one
approved submission. -/
theorem progress_record_derivation_witness :
    let db : DB := { emptyDB with
      tasks := [⟨10, 1, 5⟩, ⟨11, 1, 5⟩]
      submissions := [⟨100, 10, 7, SubStatus.APPROVED, none, none, none, none⟩] }
    ∃ p, findProgress (finalDB db (updateTeenProgressHelper 7 1 5 db).2) 7 1 = some p
      ∧ p.tasksTotal = (tasksOfChallenge db 1).length
      ∧ p.tasksCompleted = specApprovedCount db 7 1
      ∧ p.percentage = specPercentage (specApprovedCount db 7 1) (tasksOfChallenge db 1).length
      ∧ ((tasksOfChallenge db 1).length = 0 → p.percentage = 0) :=
  progress_record_derivation 7 1 5 _ (by decide)

end ClaimC1

section ClaimC2

/-- Database used to exercise the progress recomputation twice in a row:
one task in challenge 1, one APPROVED submission by teen 7, so the teen's
percentage is 100. -/
def progressCexDB : DB := { emptyDB with
  tasks := [⟨10, 1, 5⟩]
  submissions := [⟨100, 10, 7, SubStatus.APPROVED, none, none, none, none⟩] }

/-- State after the first recomputation, run at time 5. -/
def progressCexDB1 : DB :=
  finalDB progressCexDB (updateTeenProgressHelper 7 1 5 progressCexDB).2

/-- State after the second recomputation, run at time 9 with no intervening
writes. -/
def progressCexDB2 : DB :=
  finalDB progressCexDB1 (updateTeenProgressHelper 7 1 9 progressCexDB1).2

/-- Claim C2 (failing input): the progress recomputation is not idempotent on
an already-100% teen. With one task and one APPROVED submission (percentage
100) and no intervening writes to submissions or tasks, the first run at time
5 persists `completedAt = 5` but the second run at time 9 overwrites it with
`completedAt = 9`, manufacturing a new completion timestamp instead of
retaining the prior one; the two persisted records differ. -/
theorem updateTeenProgress_rewrites_completedAt :
    progressCexDB1.tasks = progressCexDB.tasks
      ∧ progressCexDB1.submissions = progressCexDB.submissions
      ∧ (findProgress progressCexDB1 7 1).map ProgressRec.completedAt = some (some 5)
      ∧ (findProgress progressCexDB2 7 1).map ProgressRec.completedAt = some (some 9)
      ∧ findProgress progressCexDB1 7 1 ≠ findProgress progressCexDB2 7 1 := by
  simp only [progressCexDB2, progressCexDB1, progressCexDB, updateTeenProgressHelper,
    calculateProgress_eq_div]
  decide

end ClaimC2

section ClaimC3

/-- Database for the C3 counterexample: teen 7 holds badge 50 of challenge 1
in status PURCHASED, and the teen's one submission on the challenge's one
task is APPROVED, so recomputation yields percentage 100. -/
def badgeCexDB : DB := { emptyDB with
  challenges := [⟨1, 2025, true, true⟩]
  badges := [⟨50, 1, true⟩]
  tasks := [⟨10, 1, 5⟩]
  submissions := [⟨100, 10, 7, SubStatus.APPROVED, none, none, none, none⟩]
  teenBadges := [⟨7, 50, BadgeStatus.PURCHASED, some 2, none⟩] }

/-- Claim C3 (counterexample): a submission brings teen 7 to percentage 100 on
challenge 1 while badge 50 is PURCHASED, yet after `updateTeenProgressHelper`
the TeenBadge is still PURCHASED, not EARNED — the recomputation does not
invoke the badge state machine. -/
theorem recompute_no_badge_upgrade_cex :
    (updateTeenProgressHelper 7 1 5 badgeCexDB).1.percentage = 100
      ∧ statusAt (finalDB badgeCexDB (updateTeenProgressHelper 7 1 5 badgeCexDB).2) 7 50
          = some BadgeStatus.PURCHASED
      ∧ statusAt (finalDB badgeCexDB (updateTeenProgressHelper 7 1 5 badgeCexDB).2) 7 50
          ≠ some BadgeStatus.EARNED := by
  simp only [badgeCexDB, updateTeenProgressHelper, calculateProgress_eq_div]
  decide

/-- Claim C3 (amended): the progress recomputation never touches TeenBadge
rows; the PURCHASED → EARNED upgrade is performed instead by the purchase
flows (here the successful-charge webhook handler), which mark the badge
EARNED when the teen's persisted progress percentage for the badge's
challenge is already 100. -/
theorem badge_upgrade_only_in_purchase_flows :
    (∀ teenId challengeId now db,
        (finalDB db (updateTeenProgressHelper teenId challengeId now db).2).teenBadges
          = db.teenBadges)
      ∧ (∀ reference teenId badgeId challengeId paidAt now db badge p,
          findBadge db badgeId = some badge →
          findProgress db teenId challengeId = some p →
          p.percentage = 100 →
          statusAt (finalDB db
              (handleSuccessfulCharge reference teenId badgeId challengeId paidAt now
                false db))
            teenId badgeId = some BadgeStatus.EARNED) := by
  constructor
  · intro teenId challengeId now db
    rfl
  · intro reference teenId badgeId challengeId paidAt now db badge p hfb hfp hp100
    have hfp2 : findProgress (upsertTeenBadgePurchased teenId badgeId paidAt
        (upsertTransactionSuccess reference teenId badgeId paidAt db)) teenId challengeId
        = some p := hfp
    have htrace : handleSuccessfulCharge reference teenId badgeId challengeId paidAt now
        false db
        = [upsertTransactionSuccess reference teenId badgeId paidAt db,
           upsertTeenBadgePurchased teenId badgeId paidAt
             (upsertTransactionSuccess reference teenId badgeId paidAt db),
           markTeenBadgeEarned teenId badgeId now
             (upsertTeenBadgePurchased teenId badgeId paidAt
               (upsertTransactionSuccess reference teenId badgeId paidAt db)),
           (updateRaffleEligibilityHelper teenId
             ((findChallenge
                 (markTeenBadgeEarned teenId badgeId now
                   (upsertTeenBadgePurchased teenId badgeId paidAt
                     (upsertTransactionSuccess reference teenId badgeId paidAt db)))
                 badge.challengeId).elim 0 (fun c => c.year))
             (markTeenBadgeEarned teenId badgeId now
               (upsertTeenBadgePurchased teenId badgeId paidAt
                 (upsertTransactionSuccess reference teenId badgeId paidAt db)))).2.getLastD
             (markTeenBadgeEarned teenId badgeId now
               (upsertTeenBadgePurchased teenId badgeId paidAt
                 (upsertTransactionSuccess reference teenId badgeId paidAt db)))] := by
      unfold handleSuccessfulCharge
      rw [if_neg (by simp)]
      rw [hfb]
      dsimp only
      rw [hfp2]
      dsimp only
      rw [if_pos hp100]
      rfl
    rw [htrace]
    have hstep : statusAt (finalDB db
        [upsertTransactionSuccess reference teenId badgeId paidAt db,
         upsertTeenBadgePurchased teenId badgeId paidAt
           (upsertTransactionSuccess reference teenId badgeId paidAt db),
         markTeenBadgeEarned teenId badgeId now
           (upsertTeenBadgePurchased teenId badgeId paidAt
             (upsertTransactionSuccess reference teenId badgeId paidAt db)),
         (updateRaffleEligibilityHelper teenId
           ((findChallenge
               (markTeenBadgeEarned teenId badgeId now
                 (upsertTeenBadgePurchased teenId badgeId paidAt
                   (upsertTransactionSuccess reference teenId badgeId paidAt db)))
               badge.challengeId).elim 0 (fun c => c.year))
           (markTeenBadgeEarned teenId badgeId now
             (upsertTeenBadgePurchased teenId badgeId paidAt
               (upsertTransactionSuccess reference teenId badgeId paidAt db)))).2.getLastD
           (markTeenBadgeEarned teenId badgeId now
             (upsertTeenBadgePurchased teenId badgeId paidAt
               (upsertTransactionSuccess reference teenId badgeId paidAt db)))])
        teenId badgeId
        = statusAt (markTeenBadgeEarned teenId badgeId now
            (upsertTeenBadgePurchased teenId badgeId paidAt
              (upsertTransactionSuccess reference teenId badgeId paidAt db)))
          teenId badgeId := rfl
    rw [hstep, statusAt_markEarned_self, statusAt_upsertPurchased_self]
    rfl

/-- Database for the witness of `badge_upgrade_only_in_purchase_flows`:
progress already persisted at 100% and badge 50 PURCHASED. -/
def earnCexDB : DB := { emptyDB with
  challenges := [⟨1, 2025, true, true⟩]
  badges := [⟨50, 1, true⟩]
  teenProgress := [⟨7, 1, 1, 1, 100, some 1⟩]
  teenBadges := [⟨7, 50, BadgeStatus.PURCHASED, some 2, none⟩] }

/-- Witness for `badge_upgrade_only_in_purchase_flows` on concrete inputs. -/
theorem badge_upgrade_only_in_purchase_flows_witness :
    (finalDB badgeCexDB (updateTeenProgressHelper 7 1 5 badgeCexDB).2).teenBadges
        = badgeCexDB.teenBadges
      ∧ statusAt (finalDB earnCexDB
          (handleSuccessfulCharge 500 7 50 1 2 3 false earnCexDB)) 7 50
        = some BadgeStatus.EARNED :=
  ⟨badge_upgrade_only_in_purchase_flows.1 7 1 5 badgeCexDB,
   badge_upgrade_only_in_purchase_flows.2 500 7 50 1 2 3 earnCexDB
     ⟨50, 1, true⟩ ⟨7, 1, 1, 1, 100, some 1⟩ (by decide) (by decide) (by decide)⟩

end ClaimC3

section ClaimC6

/-- Database with badge 50 of published challenge 1 already EARNED by
teen 7. -/
def earnedBadgeDB : DB := { emptyDB with
  challenges := [⟨1, 2025, true, true⟩]
  badges := [⟨50, 1, true⟩]
  teenBadges := [⟨7, 50, BadgeStatus.EARNED, some 2, some 3⟩] }

/-- Database with badge 50 of published challenge 1 already PURCHASED by
teen 7. -/
def purchasedBadgeDB : DB := { emptyDB with
  challenges := [⟨1, 2025, true, true⟩]
  badges := [⟨50, 1, true⟩]
  teenBadges := [⟨7, 50, BadgeStatus.PURCHASED, some 2, none⟩] }

/-- Claim C6 (counterexample): a purchase attempt on a TeenBadge already in
status EARNED is not rejected as a duplicate: payment is initialized, the
request succeeds, and the row is downgraded to AVAILABLE — a state change. -/
theorem earned_purchase_not_rejected_cex :
    (initializeBadgePurchase 7 50 true earnedBadgeDB).1.success = true
      ∧ (initializeBadgePurchase 7 50 true earnedBadgeDB).1.message
          = some "Payment initialized successfully"
      ∧ statusAt (finalDB earnedBadgeDB (initializeBadgePurchase 7 50 true earnedBadgeDB).2)
          7 50 = some BadgeStatus.AVAILABLE := by
  decide

/-- Claim C6 (amended): for an active badge of a published challenge, a
purchase attempt on an existing TeenBadge in status PURCHASED is rejected
with `Badge already purchased` and no write occurs; an existing row in status
EARNED is not treated as a duplicate — the purchase proceeds (payment is
initialized) and the row is reset to AVAILABLE. -/
theorem duplicate_purchase_check (teenId badgeId : Nat) (db : DB)
    (r : TeenBadge) (badge : Badge) (challenge : Challenge)
    (hr : findTeenBadge db teenId badgeId = some r)
    (hfb : findBadge db badgeId = some badge)
    (hact : badge.isActive = true)
    (hfc : findChallenge db badge.challengeId = some challenge)
    (hpub : challenge.isPublished = true) :
    (∀ txOk, r.status = BadgeStatus.PURCHASED →
        initializeBadgePurchase teenId badgeId txOk db
          = (⟨400, false, some "Badge already purchased"⟩, []))
      ∧ (r.status = BadgeStatus.EARNED →
          (initializeBadgePurchase teenId badgeId true db).1
              = ⟨200, true, some "Payment initialized successfully"⟩
            ∧ statusAt (finalDB db (initializeBadgePurchase teenId badgeId true db).2)
                teenId badgeId = some BadgeStatus.AVAILABLE) := by
  have hbranch : ∀ txOk, initializeBadgePurchase teenId badgeId txOk db
      = if r.status == BadgeStatus.PURCHASED then
          (⟨400, false, some "Badge already purchased"⟩, [])
        else if !txOk then
          (⟨500, false, some "Failed to initialize payment"⟩, [])
        else
          (⟨200, true, some "Payment initialized successfully"⟩,
            [upsertTeenBadgeAvailable teenId badgeId db]) := by
    intro txOk
    unfold initializeBadgePurchase
    rw [hfb]
    dsimp only
    rw [hact, if_neg (by decide)]
    rw [hfc]
    dsimp only
    rw [hpub, if_neg (by decide)]
    rw [hr]
  constructor
  · intro txOk hstatus
    rw [hbranch txOk, if_pos (by simp [hstatus])]
  · intro hstatus
    rw [hbranch true, if_neg (by simp [hstatus]), if_neg (by simp)]
    refine ⟨rfl, ?_⟩
    have : finalDB db [upsertTeenBadgeAvailable teenId badgeId db]
        = upsertTeenBadgeAvailable teenId badgeId db := rfl
    rw [this, statusAt_upsertAvailable_self]

/-- Witness for `duplicate_purchase_check`: the PURCHASED case rejects and
the EARNED case proceeds and downgrades, on concrete databases. -/
theorem duplicate_purchase_check_witness :
    (initializeBadgePurchase 7 50 true purchasedBadgeDB
        = (⟨400, false, some "Badge already purchased"⟩, []))
      ∧ ((initializeBadgePurchase 7 50 true earnedBadgeDB).1
            = ⟨200, true, some "Payment initialized successfully"⟩
          ∧ statusAt (finalDB earnedBadgeDB
              (initializeBadgePurchase 7 50 true earnedBadgeDB).2) 7 50
            = some BadgeStatus.AVAILABLE) :=
  ⟨(duplicate_purchase_check 7 50 purchasedBadgeDB
      ⟨7, 50, BadgeStatus.PURCHASED, some 2, none⟩ ⟨50, 1, true⟩ ⟨1, 2025, true, true⟩
      (by decide) (by decide) (by decide) (by decide) (by decide)).1 true rfl,
   (duplicate_purchase_check 7 50 earnedBadgeDB
      ⟨7, 50, BadgeStatus.EARNED, some 2, some 3⟩ ⟨50, 1, true⟩ ⟨1, 2025, true, true⟩
      (by decide) (by decide) (by decide) (by decide) (by decide)).2 rfl⟩

end ClaimC6

section ClaimC4

theorem lastAux {α : Type} (a : α) (l : List α) :
    (a :: l).getLast? = some (l.getLastD a) := by
  induction l generalizing a with
  | nil => rfl
  | cons x l ih =>
    rw [List.getLast?_cons_cons, ih x, List.getLastD_cons]

theorem noStep_PA_of_congr {t b : Nat} {d1 d2 : DB}
    (h : statusAt d2 t b = statusAt d1 t b) :
    noStep t b BadgeStatus.PURCHASED BadgeStatus.AVAILABLE d1 d2 := by
  intro ⟨h1, h2⟩
  rw [h, h1] at h2
  cases h2

theorem noStep_PA_of_after {t b : Nat} {d1 d2 : DB}
    (h : statusAt d2 t b ≠ some BadgeStatus.AVAILABLE) :
    noStep t b BadgeStatus.PURCHASED BadgeStatus.AVAILABLE d1 d2 :=
  fun ⟨_, h2⟩ => h h2

theorem noStep_PA_of_before {t b : Nat} {d1 d2 : DB}
    (h : statusAt d1 t b ≠ some BadgeStatus.PURCHASED) :
    noStep t b BadgeStatus.PURCHASED BadgeStatus.AVAILABLE d1 d2 :=
  fun ⟨h1, _⟩ => h h1

theorem noStep_PA_upsertPurchased (t b t2 b2 p : Nat) (d : DB) :
    noStep t b BadgeStatus.PURCHASED BadgeStatus.AVAILABLE d
      (upsertTeenBadgePurchased t2 b2 p d) := by
  by_cases hk : t2 = t ∧ b2 = b
  · apply noStep_PA_of_after
    rw [hk.1, hk.2, statusAt_upsertPurchased_self]
    intro hcontra
    cases hcontra
  · exact noStep_PA_of_congr (statusAt_upsertPurchased_other t2 b2 p t b d hk)

theorem noStep_PA_markEarned (t b t2 b2 n : Nat) (d : DB) :
    noStep t b BadgeStatus.PURCHASED BadgeStatus.AVAILABLE d
      (markTeenBadgeEarned t2 b2 n d) := by
  by_cases hk : t2 = t ∧ b2 = b
  · apply noStep_PA_of_after
    rw [hk.1, hk.2, statusAt_markEarned_self]
    intro hcontra
    cases hstat : statusAt d t b <;> rw [hstat] at hcontra <;> cases hcontra
  · exact noStep_PA_of_congr (statusAt_markEarned_other t2 b2 n t b d hk)

theorem noStep_PA_upsertAvailable (t b t2 b2 : Nat) (d : DB)
    (hguard : statusAt d t2 b2 ≠ some BadgeStatus.PURCHASED) :
    noStep t b BadgeStatus.PURCHASED BadgeStatus.AVAILABLE d
      (upsertTeenBadgeAvailable t2 b2 d) := by
  by_cases hk : t2 = t ∧ b2 = b
  · apply noStep_PA_of_before
    rw [← hk.1, ← hk.2]
    exact hguard
  · exact noStep_PA_of_congr (statusAt_upsertAvailable_other t2 b2 t b d hk)

/-- The write trace of `initializeBadgePurchase` is empty (all rejection
branches), or is the single AVAILABLE upsert guarded by the fact that the
existing row was not PURCHASED. -/
theorem initTrace_cases (teenId badgeId : Nat) (txOk : Bool) (db : DB) :
    (initializeBadgePurchase teenId badgeId txOk db).2 = []
      ∨ ((initializeBadgePurchase teenId badgeId txOk db).2
          = [upsertTeenBadgeAvailable teenId badgeId db]
        ∧ statusAt db teenId badgeId ≠ some BadgeStatus.PURCHASED) := by
  unfold initializeBadgePurchase
  rcases hfb : findBadge db badgeId with _ | badge
  · left; rfl
  · dsimp only
    by_cases hact : badge.isActive = true
    · rw [hact, if_neg (by decide)]
      rcases hfc : findChallenge db badge.challengeId with _ | ch
      · left; rfl
      · dsimp only
        by_cases hpub : ch.isPublished = true
        · rw [hpub, if_neg (by decide)]
          rcases hr : findTeenBadge db teenId badgeId with _ | r
          · dsimp only
            cases txOk with
            | false => left; rfl
            | true =>
              rw [if_neg (by decide)]
              right
              refine ⟨rfl, ?_⟩
              rw [show statusAt db teenId badgeId
                  = (findTeenBadge db teenId badgeId).map (fun r => r.status) from rfl, hr]
              intro hcontra
              cases hcontra
          · dsimp only
            by_cases hst : (r.status == BadgeStatus.PURCHASED) = true
            · rw [if_pos hst]
              left; rfl
            · rw [if_neg hst]
              cases txOk with
              | false => left; rfl
              | true =>
                rw [if_neg (by decide)]
                right
                refine ⟨rfl, ?_⟩
                rw [show statusAt db teenId badgeId
                    = (findTeenBadge db teenId badgeId).map (fun r => r.status) from rfl, hr]
                intro hcontra
                have hrp : r.status = BadgeStatus.PURCHASED := by
                  simpa using hcontra
                rw [hrp] at hst
                exact hst rfl
        · rw [eq_false_of_ne_true hpub, if_pos (by decide)]
          left; rfl
    · rw [eq_false_of_ne_true hact, if_pos (by decide)]
      left; rfl

theorem chainPA_webhookTrace (t b reference teenId badgeId challengeId paidAt now : Nat)
    (fault : Bool) (db : DB) :
    List.Chain' (noStep t b BadgeStatus.PURCHASED BadgeStatus.AVAILABLE)
      (db :: handleSuccessfulCharge reference teenId badgeId challengeId paidAt now
        fault db) := by
  unfold handleSuccessfulCharge
  cases fault with
  | true => exact List.chain'_singleton db
  | false =>
    rw [if_neg (by decide)]
    rcases hfb : findBadge db badgeId with _ | badge
    · exact List.chain'_singleton db
    · dsimp only
      have htx : noStep t b BadgeStatus.PURCHASED BadgeStatus.AVAILABLE db
          (upsertTransactionSuccess reference teenId badgeId paidAt db) :=
        noStep_PA_of_congr (statusAt_congr rfl t b)
      have hpu := noStep_PA_upsertPurchased t b teenId badgeId paidAt
        (upsertTransactionSuccess reference teenId badgeId paidAt db)
      rcases hfp : findProgress (upsertTeenBadgePurchased teenId badgeId paidAt
          (upsertTransactionSuccess reference teenId badgeId paidAt db))
          teenId challengeId with _ | p
      · dsimp only
        exact List.chain'_cons.mpr ⟨htx, List.chain'_cons.mpr
          ⟨hpu, List.chain'_cons.mpr
            ⟨noStep_PA_of_congr (statusAt_congr rfl t b), List.chain'_singleton _⟩⟩⟩
      · dsimp only
        by_cases hp100 : p.percentage = 100
        · rw [if_pos hp100]
          exact List.chain'_cons.mpr ⟨htx, List.chain'_cons.mpr
            ⟨hpu, List.chain'_cons.mpr
              ⟨noStep_PA_markEarned t b teenId badgeId now _, List.chain'_cons.mpr
                ⟨noStep_PA_of_congr (statusAt_congr rfl t b),
                  List.chain'_singleton _⟩⟩⟩⟩
        · rw [if_neg hp100]
          exact List.chain'_cons.mpr ⟨htx, List.chain'_cons.mpr
            ⟨hpu, List.chain'_cons.mpr
              ⟨noStep_PA_of_congr (statusAt_congr rfl t b), List.chain'_singleton _⟩⟩⟩

theorem chainPA_verifyTrace (t b teenId badgeId challengeId : Nat) (verifyOk : Bool)
    (now : Nat) (db : DB) :
    List.Chain' (noStep t b BadgeStatus.PURCHASED BadgeStatus.AVAILABLE)
      (db :: (verifyBadgePurchase teenId badgeId challengeId verifyOk now db).2) := by
  unfold verifyBadgePurchase
  cases verifyOk with
  | false => exact List.chain'_singleton db
  | true =>
    rw [if_neg (by decide)]
    rcases hfb : findBadge db badgeId with _ | badge
    · exact List.chain'_singleton db
    · dsimp only
      have hpu := noStep_PA_upsertPurchased t b teenId badgeId now db
      rcases hfp : findProgress (upsertTeenBadgePurchased teenId badgeId now db)
          teenId challengeId with _ | p
      · dsimp only
        exact List.chain'_cons.mpr ⟨hpu, List.chain'_cons.mpr
          ⟨noStep_PA_of_congr (statusAt_congr rfl t b), List.chain'_singleton _⟩⟩
      · dsimp only
        by_cases hp100 : p.percentage = 100
        · rw [if_pos hp100]
          exact List.chain'_cons.mpr ⟨hpu, List.chain'_cons.mpr
            ⟨noStep_PA_markEarned t b teenId badgeId now _, List.chain'_cons.mpr
              ⟨noStep_PA_of_congr (statusAt_congr rfl t b), List.chain'_singleton _⟩⟩⟩
        · rw [if_neg hp100]
          exact List.chain'_cons.mpr ⟨hpu, List.chain'_cons.mpr
            ⟨noStep_PA_of_congr (statusAt_congr rfl t b), List.chain'_singleton _⟩⟩

theorem chainPA_op (t b : Nat) (op : Op) (db : DB) :
    List.Chain' (noStep t b BadgeStatus.PURCHASED BadgeStatus.AVAILABLE)
      (db :: opTrace op db) := by
  cases op with
  | init teenId badgeId txOk =>
    show List.Chain' _ (db :: (initializeBadgePurchase teenId badgeId txOk db).2)
    rcases initTrace_cases teenId badgeId txOk db with h | ⟨h, hguard⟩
    · rw [h]
      exact List.chain'_singleton db
    · rw [h]
      exact List.chain'_cons.mpr
        ⟨noStep_PA_upsertAvailable t b teenId badgeId db hguard,
          List.chain'_singleton _⟩
  | verify teenId badgeId challengeId verifyOk now =>
    exact chainPA_verifyTrace t b teenId badgeId challengeId verifyOk now db
  | webhook sigOk event fault now =>
    show List.Chain' _ (db :: (handlePaystackWebhook sigOk event fault now db).2)
    unfold handlePaystackWebhook
    cases sigOk with
    | false => exact List.chain'_singleton db
    | true =>
      rw [if_neg (by decide)]
      cases event with
      | chargeSuccess reference teenId badgeId challengeId paidAt =>
        exact chainPA_webhookTrace t b reference teenId badgeId challengeId paidAt now
          fault db
      | chargeFailed reference teenId badgeId =>
        show List.Chain' _ (db :: handleFailedCharge reference teenId badgeId fault db)
        unfold handleFailedCharge
        cases fault with
        | true => exact List.chain'_singleton db
        | false =>
          rw [if_neg (by decide)]
          exact List.chain'_cons.mpr
            ⟨noStep_PA_of_congr (statusAt_congr rfl t b), List.chain'_singleton _⟩
      | transferSuccess => exact List.chain'_singleton db
      | transferFailed => exact List.chain'_singleton db
      | other => exact List.chain'_singleton db
  | recompute teenId challengeId now =>
    show List.Chain' _ (db :: (updateTeenProgressHelper teenId challengeId now db).2)
    exact List.chain'_cons.mpr
      ⟨noStep_PA_of_congr (statusAt_congr rfl t b), List.chain'_singleton _⟩

/-- Claim C4 (amended, positive half): under every sequence of operations
(purchase initialization, purchase verification, webhook delivery including
duplicates, progress recomputation) from any state, no database write ever
moves a TeenBadge row from PURCHASED to AVAILABLE. -/
theorem no_purchased_to_available (ops : List Op) (db : DB) (t b : Nat) :
    List.Chain' (noStep t b BadgeStatus.PURCHASED BadgeStatus.AVAILABLE)
      (db :: runOps ops db) := by
  induction ops generalizing db with
  | nil => exact List.chain'_singleton db
  | cons op rest ih =>
    show List.Chain' _
      (db :: (opTrace op db ++ runOps rest ((opTrace op db).getLastD db)))
    have h1 := chainPA_op t b op db
    have h2 := ih ((opTrace op db).getLastD db)
    rw [show db :: (opTrace op db ++ runOps rest ((opTrace op db).getLastD db))
        = (db :: opTrace op db) ++ runOps rest ((opTrace op db).getLastD db) from rfl,
      List.chain'_append]
    refine ⟨h1, (List.chain'_cons'.mp h2).2, ?_⟩
    intro x hx y hy
    rw [lastAux, Option.mem_def, Option.some_inj] at hx
    subst hx
    exact (List.chain'_cons'.mp h2).1 y hy

/-- Initial database for the duplicate-webhook counterexample: one published
challenge with one task, one APPROVED submission by teen 7, no TeenBadge row
yet. -/
def duplicateWebhookDB : DB := { emptyDB with
  challenges := [⟨1, 2025, true, true⟩]
  badges := [⟨50, 1, true⟩]
  tasks := [⟨10, 1, 5⟩]
  submissions := [⟨100, 10, 7, SubStatus.APPROVED, none, none, none, none⟩] }

/-- Operation sequence for the counterexample: recompute progress (reaching
100%), deliver the successful-charge webhook (badge becomes PURCHASED then
EARNED), then deliver the same charge again (duplicate delivery). -/
def duplicateWebhookOps : List Op :=
  [Op.recompute 7 1 1,
   Op.webhook true (WebhookEvent.chargeSuccess 500 7 50 1 2) false 2,
   Op.webhook true (WebhookEvent.chargeSuccess 500 7 50 1 3) false 3]

/-- Boolean detector for a forbidden transition: `true` when some pair of
successive states in the list moves the `(teenId, badgeId)` row from `x` to
`y`. -/
def hasStepB (t b : Nat) (x y : BadgeStatus) : List DB → Bool
  | d1 :: d2 :: rest =>
    (statusAt d1 t b == some x && statusAt d2 t b == some y)
      || hasStepB t b x y (d2 :: rest)
  | _ => false

theorem not_chain'_of_hasStepB (t b : Nat) (x y : BadgeStatus) :
    ∀ (l : List DB), hasStepB t b x y l = true → ¬ List.Chain' (noStep t b x y) l
  | [], h => by simp [hasStepB] at h
  | [d], h => by simp [hasStepB] at h
  | d1 :: d2 :: rest, h => by
    intro hchain
    rw [List.chain'_cons] at hchain
    unfold hasStepB at h
    simp only [Bool.or_eq_true, Bool.and_eq_true, beq_iff_eq] at h
    rcases h with ⟨h1, h2⟩ | h2
    · exact hchain.1 ⟨h1, h2⟩
    · exact not_chain'_of_hasStepB t b x y (d2 :: rest) (by simpa using h2) hchain.2

/-- Claim C4 (counterexample): under the duplicate webhook delivery the
TeenBadge row of teen 7 / badge 50 does transition from EARNED to PURCHASED
(the second delivery's upsert overwrites the EARNED row with PURCHASED before
re-upgrading it), so the claimed invariant fails. -/
theorem earned_to_purchased_cex :
    ¬ List.Chain' (noStep 7 50 BadgeStatus.EARNED BadgeStatus.PURCHASED)
      (duplicateWebhookDB :: runOps duplicateWebhookOps duplicateWebhookDB) := by
  apply not_chain'_of_hasStepB
  simp only [duplicateWebhookOps, duplicateWebhookDB, runOps, opTrace,
    updateTeenProgressHelper, handlePaystackWebhook, handleSuccessfulCharge,
    handleFailedCharge, updateRaffleEligibilityHelper, calculateProgress_eq_div]
  decide

end ClaimC4

example : calculateProgressDiv 1 3 = 33 := by decide

example : calculateProgressDiv 1 8 = 13 := by decide

example : calculateProgressDiv 23 40 = 58 := by decide

example : calculateProgressDiv 0 0 = 0 := by decide

example :
    (updateTeenProgressHelper 7 1 5
      { emptyDB with
        tasks := [⟨10, 1, 5⟩]
        submissions := [⟨100, 10, 7, SubStatus.APPROVED, none, none, none, none⟩]
      }).1.percentage = 100 := by
  simp only [updateTeenProgressHelper, calculateProgress_eq_div]
  decide

end Teensha
